import Mathlib

/-!
Verification of the Task Store & Notification Engine of the CSCI3100 Gp21
kanban repository, shallowly embedded from `src/DataStructures.py` and
`src/Notification.py`.

Conventions of the embedding:
* Python `str` is `String`; phone numbers / task ids are `Int` (Python ints,
  checked for positivity at the validation sites the code has).
* `datetime` instants are modelled as a calendar day number (`Int`, epoch
  days, the standard civil-from-days correspondence) plus microseconds since
  midnight (`Nat`); `date()` is the day component, adding `timedelta(days=n)`
  adds `n` to the day component, and subtracting instants yields signed
  microseconds, exactly the granularity of Python `datetime`/`timedelta`.
* Fallible Python code (constructors and property setters that `raise`)
  becomes `Except String _` carrying the `ValueError` message; the
  board methods catch every exception and report `(db, ok, printed lines)`.
* The `KanbanInfoDatabase` module (`kdb`) is not part of the sources; it is
  modelled from the spec (see the `KDB` definitions below).
-/

namespace Kanban

/-- Python whitespace for `str.strip()` (space, tab, LF, CR, VT, FF; these
are the characters relevant to the fields at hand). -/
def isPySpace (c : Char) : Bool :=
  c == ' ' || c == '\t' || c == '\n' || c == '\r' || c == Char.ofNat 11 || c == Char.ofNat 12

/-- Leading and trailing whitespace removal on a character list: the body of
the Python method `str.strip()`. -/
def stripChars (l : List Char) : List Char :=
  ((l.dropWhile isPySpace).reverse.dropWhile isPySpace).reverse

/-- Python `s.strip()`. -/
def pyStrip (s : String) : String := String.mk (stripChars s.data)

/-- Embedding of `TaskStatus.get_valid_statuses()`: the closed four-value
status enumeration (`DataStructures.py` lines 12-22). -/
def validStatuses : List String := ["To-Do", "In Progress", "Waiting Review", "Finished"]

/-- Modelled from the spec: `KanbanBoard._is_valid_status` is referenced at
`DataStructures.py` lines 411 and 501 but its definition lies in the part of
the file that is not present; per the spec an add/edit "fails with
`InvalidStatus` if `status` not in the closed enumeration", so the check is
membership in the enumeration. -/
def is_valid_status (s : String) : Bool := validStatuses.contains s

/-- Number of days in a month of the Gregorian calendar (mirrors the
validation performed by Python `datetime.strptime` with format `%Y-%m-%d`). -/
def daysInMonth (y m : Nat) : Nat :=
  if m = 2 then (if y % 4 = 0 && (y % 100 ≠ 0 || y % 400 = 0) then 29 else 28)
  else if m = 4 || m = 6 || m = 9 || m = 11 then 30 else 31

/-- Numeric value of a digit sequence. -/
def natOfDigits (l : List Char) : Nat :=
  l.foldl (fun n c => n * 10 + (c.toNat - 48)) 0

/-- Split a character sequence at every `'-'` (the shape of the Python
`"%Y-%m-%d"` format: the fragments between the two mandatory dashes). -/
def splitOnDash : List Char → List (List Char)
  | [] => [[]]
  | a :: as =>
    let r := splitOnDash as
    if a == '-' then [] :: r
    else
      match r with
      | [] => [[a]]
      | g :: gs => (a :: g) :: gs

/-- Embedding of `datetime.strptime(s, "%Y-%m-%d")` as a parser of the
calendar date: a 4-digit year, `-`, a 1-2 digit month in 1..12, `-`, a
1-2 digit day valid for that month; `datetime` additionally requires the
year to be at least 1.  Returns `(year, month, day)` on success. -/
def parseYMD (s : String) : Option (Nat × Nat × Nat) :=
  match splitOnDash s.data with
  | [ys, ms, ds] =>
    if ys.length = 4 && ys.all Char.isDigit
        && 1 ≤ ms.length && ms.length ≤ 2 && ms.all Char.isDigit
        && 1 ≤ ds.length && ds.length ≤ 2 && ds.all Char.isDigit then
      let y := natOfDigits ys
      let m := natOfDigits ms
      let d := natOfDigits ds
      if 1 ≤ y && 1 ≤ m && m ≤ 12 && 1 ≤ d && d ≤ daysInMonth y m then
        some (y, m, d) else none
    else none
  | _ => none

/-- Epoch day number of a civil date (days since 1970-01-01, the standard
civil-from-days algorithm); this is the order-preserving coordinate in which
`date()` comparisons and `timedelta(days = n)` shifts are carried out. -/
def epochDay (y m d : Nat) : Int :=
  let y' := if m ≤ 2 then y - 1 else y
  let era := y' / 400
  let yoe := y' % 400
  let mp := (m + 9) % 12
  let doy := (153 * mp + 2) / 5 + d - 1
  let doe := yoe * 365 + yoe / 4 - yoe / 100 + doy
  (era * 146097 + doe : Int) - 719468

/-- Model of a Python `datetime` instant: the epoch-day number of its
calendar date and the microseconds elapsed since midnight of that day
(a valid instant has `usec < usecPerDay`). -/
structure DateTime where
  day : Int
  usec : Nat
deriving DecidableEq

def usecPerDay : Nat := 86400000000

/-- Microseconds-within-day of `23:59:59.999999`, the end-of-day instant the
notification scan promotes a due date to (`Notification.py` line 43). -/
def endOfDayUsec : Nat := 86399999999

/-- Persisted task row, positional layout
`(id, title, status, personInCharge, creationTimestamp, dueDate, creator,
editor, additionalInfo)` (spec section 6; `Task.from_database_row`).
`due_date` is an `Option` because the column is read defensively by the
notification scan; `editors` is the nullable last-editor column. -/
structure Row where
  id : Int
  title : String
  status : String
  person_in_charge : Int
  creation_date : Int
  due_date : Option String
  creator : Int
  editors : Option Int
  additional_info : String
deriving DecidableEq

/-- State of the in-memory `Task` object of `DataStructures.py`. -/
structure Task where
  task_id : Option Int
  title : String
  status : String
  person_in_charge : Int
  due_date : Option String
  creator : Int
  additional_info : String
  editors : Option Int
  creation_date : Int
deriving DecidableEq

/-- Embedding of `Task.__init__` (`DataStructures.py` lines 41-105):
validates the constructor arguments in source order and stores the stripped
title.  `creation_date` is the instant supplied by the caller (the board
passes the current time; `from_database_row` passes the stored timestamp). -/
def Task.init (title status : String) (person_in_charge : Int) (due_date : Option String)
    (creator : Int) (additional_info : String) (creation_date : Int)
    (editors : Option Int) (task_id : Option Int) : Except String Task :=
  if pyStrip title = "" then .error "Task title cannot be empty"
  else if status = "" then .error "Task status cannot be empty"
  else if person_in_charge ≤ 0 then .error "Person in charge must be a positive integer"
  else if creator ≤ 0 then .error "Creator must be a positive integer"
  else if is_valid_status status = false then .error ("Invalid status: " ++ status)
  else .ok ⟨task_id, pyStrip title, status, person_in_charge, due_date, creator,
            additional_info, editors, creation_date⟩

/-- Embedding of `Task.from_database_row` (`DataStructures.py` lines
306-326): rebuild the in-memory object from a stored row (the 9-column
shape is enforced by the `Row` type). -/
def from_database_row (r : Row) : Except String Task :=
  Task.init r.title r.status r.person_in_charge r.due_date r.creator
    r.additional_info r.creation_date r.editors (some r.id)

/-- Embedding of `Task.__eq__` (`DataStructures.py` lines 338-342):
equality is based on the task id alone, and is `False` whenever the left
operand has id `None`. -/
def taskEq (a b : Task) : Bool :=
  a.task_id.isSome && a.task_id == b.task_id

/-- Modelled from the spec: the state of the missing `KanbanInfoDatabase` module —
the user directory (`UserExists`) and the persisted KANBAN rows, with the
store-assigned next task id ("assigns a new unique `id`", never reused). -/
structure KDB where
  users : List Int
  tasks : List Row
  nextId : Int
deriving DecidableEq

/-- Modelled from the spec: `kdb.CheckUserExist` = `UserExists(userId)`. -/
def CheckUserExist (db : KDB) (u : Int) : Bool := db.users.contains u

/-- Modelled from the spec: `kdb.GetTaskByID` resolves an id to its stored
row, or fails when the id does not resolve. -/
def GetTaskByID (db : KDB) (id : Int) : Option Row :=
  db.tasks.find? (fun r => r.id == id)

/-- Modelled from the spec: `kdb.AddTask` persists a new row under a fresh
unique id with the nullable `editor` column unset. -/
def AddTask (db : KDB) (title status : String) (pic : Int) (creation : Int)
    (due : Option String) (creator : Int) (info : String) : KDB :=
  { db with
    tasks := db.tasks ++ [⟨db.nextId, title, status, pic, creation, due, creator, none, info⟩],
    nextId := db.nextId + 1 }

/-- Modelled from the spec: `kdb.EditTask` overwrites the mutable columns of
the row with the given id (id, creation timestamp and creator are immutable). -/
def EditTask (db : KDB) (id : Int) (title status : String) (pic : Int)
    (due : Option String) (editors : Option Int) (info : String) : KDB :=
  { db with
    tasks := db.tasks.map (fun r =>
      if r.id == id then
        { r with title := title, status := status, person_in_charge := pic,
                 due_date := due, editors := editors, additional_info := info }
      else r) }

/-- Modelled from the spec: `kdb.DelTask` removes the row with the given id. -/
def DelTask (db : KDB) (id : Int) : KDB :=
  { db with tasks := db.tasks.filter (fun r => !(r.id == id)) }

/-- Well-formedness of the modelled store: user identifiers are phone
numbers, hence positive (`Task` validates exactly this), and every stored
stored row has an id assigned by the store, hence below the next fresh id. -/
def KDB.WF (db : KDB) : Prop :=
  (∀ u ∈ db.users, 0 < u) ∧ (∀ r ∈ db.tasks, r.id < db.nextId)

/-- Embedding of the `title` property setter (`DataStructures.py` lines
122-126). -/
def Task.setTitle (t : Task) (v : String) : Except String Task :=
  if pyStrip v = "" then .error "Task title cannot be empty"
  else .ok { t with title := pyStrip v }

/-- Embedding of the `status` property setter / `Task._validate_status`
(`DataStructures.py` lines 89-94, 132-134). -/
def Task.setStatus (t : Task) (v : String) : Except String Task :=
  if is_valid_status v = false then .error ("Invalid status: " ++ v)
  else .ok { t with status := v }

/-- Embedding of the `person_in_charge` property setter (`DataStructures.py`
lines 140-146). -/
def Task.setPersonInCharge (db : KDB) (t : Task) (v : Int) : Except String Task :=
  if v ≤ 0 then .error "Person in charge must be a positive integer"
  else if CheckUserExist db v = false then .error ("User " ++ toString v ++ " does not exist")
  else .ok { t with person_in_charge := v }

/-- Embedding of the `due_date` property setter (`DataStructures.py` lines
152-156, using `_is_valid_date_format`, i.e. `strptime "%Y-%m-%d"`). -/
def Task.setDueDate (t : Task) (v : String) : Except String Task :=
  if (parseYMD v).isSome then .ok { t with due_date := some v }
  else .error "Due date must be in YYYY-MM-DD format"

/-- Embedding of the `editors` property setter (`DataStructures.py` lines
166-172). -/
def Task.setEditors (db : KDB) (t : Task) (v : Option Int) : Except String Task :=
  match v with
  | none => .ok { t with editors := none }
  | some e =>
    if e ≤ 0 then .error "Editors must be a positive integer or None"
    else if CheckUserExist db e = false then
      .error ("Editor user " ++ toString e ++ " does not exist")
    else .ok { t with editors := some e }

/-- Embedding of `KanbanBoard.add_task` (`DataStructures.py` lines 393-438).
`now` is the wall-clock instant `datetime.now()` the constructor records.
Result: the store afterwards, the boolean return value, and the printed
lines. -/
def add_task (db : KDB) (now : Int) (title status : String) (pic : Int)
    (due : String) (creator : Int) (info : String) : KDB × Bool × List String :=
  if is_valid_status status = false then
    (db, false, ["Add Task Failed: Status is not valid"])
  else if CheckUserExist db pic = false then
    (db, false, ["Add Task Failed: Person in charge " ++ toString pic ++ " does not exist"])
  else if CheckUserExist db creator = false then
    (db, false, ["Add Task Failed: Creator " ++ toString creator ++ " does not exist"])
  else
    match Task.init title status pic (some due) creator info now none none with
    | .error e => (db, false, ["✗ Add Task Failed: " ++ e])
    | .ok t =>
      (AddTask db t.title t.status t.person_in_charge t.creation_date t.due_date
        t.creator t.additional_info,
       true, ["✓ Added: " ++ title])

/-- Field updates of an `edit_task` call: the keyword arguments
`NewTitle, NewStatus, NewPersonInCharge, NewDueDate, NewAdditionalInfo`;
`none` is an absent (or explicitly `None`) argument, which the code skips. -/
structure Updates where
  NewTitle : Option String
  NewStatus : Option String
  NewPersonInCharge : Option Int
  NewDueDate : Option String
  NewAdditionalInfo : Option String
deriving DecidableEq

/-- Embedding of `KanbanBoard._apply_task_updates` (`DataStructures.py`
lines 492-523): apply the supplied updates in source order through the
validating setters, collect the names of changed fields, and finally stamp
the acting editor if at least one field changed.  A raised `ValueError`
becomes the `Except` error. -/
def apply_task_updates (db : KDB) (t0 : Task) (u : Updates) (editor : Int) :
    Except String (Task × List String) :=
  Except.bind
    (match u.NewTitle with
     | some v => (Task.setTitle t0 v).map (fun t => (t, ["title"]))
     | none => .ok (t0, [])) (fun s1 =>
  Except.bind
    (match u.NewStatus with
     | some v =>
        if is_valid_status v = false then .error ("Invalid status: " ++ v)
        else (Task.setStatus s1.1 v).map (fun t => (t, s1.2 ++ ["status"]))
     | none => .ok s1) (fun s2 =>
  Except.bind
    (match u.NewPersonInCharge with
     | some v => (Task.setPersonInCharge db s2.1 v).map (fun t => (t, s2.2 ++ ["person_in_charge"]))
     | none => .ok s2) (fun s3 =>
  Except.bind
    (match u.NewDueDate with
     | some v => (Task.setDueDate s3.1 v).map (fun t => (t, s3.2 ++ ["due_date"]))
     | none => .ok s3) (fun s4 =>
  Except.bind
    (match u.NewAdditionalInfo with
     | some v => .ok ({ s4.1 with additional_info := v }, s4.2 ++ ["additional_info"])
     | none => .ok s4) (fun s5 =>
  if s5.2.isEmpty then .ok s5
  else (Task.setEditors db s5.1 (some editor)).map (fun t => (t, s5.2 ++ ["editor"])))))))

/-- Embedding of `KanbanBoard.edit_task` (`DataStructures.py` lines
440-490): verify the task and the editor exist, rebuild the task, apply the
updates, and persist the result when at least one field changed. -/
def edit_task (db : KDB) (task_id : Int) (editor : Int) (u : Updates) :
    KDB × Bool × List String :=
  match GetTaskByID db task_id with
  | none => (db, false, ["Edit Task Failed: Task not found"])
  | some row =>
    if CheckUserExist db editor = false then
      (db, false, ["Edit Task Failed: Editor " ++ toString editor ++ " does not exist"])
    else
      match from_database_row row with
      | .error e => (db, false, ["✗ Edit Task Failed: " ++ e])
      | .ok t =>
        match apply_task_updates db t u editor with
        | .error e => (db, false, ["✗ Edit Task Failed: " ++ e])
        | .ok s =>
          if s.2.isEmpty then (db, true, ["No valid changes specified"])
          else
            (EditTask db task_id s.1.title s.1.status s.1.person_in_charge s.1.due_date
              s.1.editors s.1.additional_info,
             true,
             ["✓ Updated task " ++ toString task_id ++ ": " ++ String.intercalate ", " s.2])

/-- Embedding of `KanbanBoard.delete_task` (`DataStructures.py` lines
525-551): verify the task exists, rebuild it (its title feeds the
confirmation message), and remove the row. -/
def delete_task (db : KDB) (task_id : Int) : KDB × Bool × List String :=
  match GetTaskByID db task_id with
  | none => (db, false, ["Delete Task Failed: Task not found"])
  | some row =>
    match from_database_row row with
    | .error e => (db, false, ["✗ Delete Task Failed: " ++ e])
    | .ok t => (DelTask db task_id, true, ["✓ Deleted: " ++ t.title])

/-- Embedding of `KanbanBoard.get_task` (`DataStructures.py` lines 580-589):
resolve the id and rebuild the task; any failure yields `none`. -/
def get_task (db : KDB) (task_id : Int) : Option Task :=
  match GetTaskByID db task_id with
  | none => none
  | some row =>
    match from_database_row row with
    | .ok t => some t
    | .error _ => none

/-- The notification horizon (`Notification.py` line 8: `Due = 14`). -/
def Due : Int := 14

/-- Modelled from the spec: `kdb.GetUserByPhone` resolves a phone number to
the display name of the user; an unresolvable or `None` phone renders the
placeholder `"None"` (the scan "must not raise — render a placeholder"). -/
def dispUser (users : List (Int × String)) (phone : Option Int) : String :=
  match phone with
  | none => "None"
  | some p =>
    match users.find? (fun q => q.1 == p) with
    | some q => q.2
    | none => "None"

/-- Zero-padded two-digit rendering, the Python 02d format. -/
def pad2 (n : Nat) : String := if n < 10 then "0" ++ toString n else toString n

/-- Due-day extraction of the scan (`Notification.py` lines 39-45): the
column must hold a string that is non-empty after stripping and parses as
`%Y-%m-%d`; the result is the epoch-day number of the due date (the
end-of-day promotion `replace(hour=23, ...)` keeps the same calendar date). -/
def dueDayOf (r : Row) : Option Int :=
  match r.due_date with
  | none => none
  | some s =>
    if pyStrip s = "" then none
    else
      match parseYMD (pyStrip s) with
      | none => none
      | some (y, m, d) => some (epochDay y m d)

/-- Signed microseconds of `DueDate - Now` where `DueDate` is the end-of-day
instant of the due calendar day (`Notification.py` lines 43, 47). -/
def timeLeftUsec (now : DateTime) (dueDay : Int) : Int :=
  (dueDay - now.day) * (usecPerDay : Int) + ((endOfDayUsec : Int) - (now.usec : Int))

/-- Embedding of the due/overdue headline of a scan entry (`Notification.py`
lines 47-62), including the forced `0d` days component when the due calendar
date equals the current one. -/
def dueMessage (now : DateTime) (dueDay : Int) : String :=
  let t := timeLeftUsec now dueDay
  if t < 0 then
    let u := (-t).toNat
    let days := u / usecPerDay
    let secs := u % usecPerDay / 1000000
    "[Task overdue by " ++
      (toString days ++ "d " ++ pad2 (secs / 3600) ++ "h " ++ pad2 (secs % 3600 / 60) ++ "m")
      ++ "]\n"
  else
    let u := t.toNat
    let days := u / usecPerDay
    let secs := u % usecPerDay / 1000000
    let dueIn :=
      if dueDay == now.day then
        "0d " ++ pad2 (secs / 3600) ++ "h " ++ pad2 (secs % 3600 / 60) ++ "m"
      else
        toString days ++ "d " ++ pad2 (secs / 3600) ++ "h " ++ pad2 (secs % 3600 / 60) ++ "m"
    "[Task due in " ++ dueIn ++ "]\n"

/-- Body of a scan entry after the headline (`Notification.py` lines 66-77). -/
def rowInfo (users : List (Int × String)) (r : Row) : String :=
  "Task ID: " ++ toString r.id ++ "\n" ++
  "Title: " ++ r.title ++ "\n" ++
  "Status: " ++ r.status ++ "\n" ++
  "Person in charge: " ++ dispUser users (some r.person_in_charge) ++ "\n" ++
  "Creation date: " ++ toString r.creation_date ++ "\n" ++
  "Due date: " ++ (r.due_date.getD "") ++ "\n" ++
  "Creator: " ++ dispUser users (some r.creator) ++ "\n" ++
  "Editor: " ++ dispUser users r.editors ++ "\n" ++
  "Additional information: " ++ r.additional_info

/-- Per-row step of `UpcomingTask` (`Notification.py` lines 28-78): skip a
row whose due date is absent, blank or unparseable; otherwise include it
exactly when the due calendar day is strictly overdue or within the
inclusive 14-day horizon, producing the formatted entry. -/
def rowNotification (users : List (Int × String)) (now : DateTime) (r : Row) :
    Option String :=
  match dueDayOf r with
  | none => none
  | some d =>
    if d < now.day ∨ (now.day ≤ d ∧ d ≤ now.day + Due) then
      some (dueMessage now d ++ rowInfo users r)
    else none

/-- The fixed separator line (`Notification.py` lines 26, 79). -/
def separator : String := "\n" ++ String.mk (List.replicate 50 '-') ++ "\n"

/-- Embedding of `Notification.UpcomingTask` (`Notification.py` lines
10-80): if the KANBAN table is absent return the empty list; otherwise a
leading separator followed by, for each qualifying row in storage order, its
entry and a separator. -/
def UpcomingTask (table : Option (List Row)) (users : List (Int × String))
    (now : DateTime) : List String :=
  match table with
  | none => []
  | some rows =>
    separator ::
      (rows.map (fun r =>
        match rowNotification users now r with
        | none => []
        | some m => [m, separator])).flatten

/-- Character-list prefix test (helper for the substring test below). -/
def hasPrefixL : List Char → List Char → Bool
  | [], _ => true
  | _ :: _, [] => false
  | a :: as, b :: bs => a == b && hasPrefixL as bs

/-- Substring occurrence over the character list. -/
def containsSubAux (sub : List Char) : List Char → Bool
  | [] => hasPrefixL sub []
  | a :: as => hasPrefixL sub (a :: as) || containsSubAux sub as

/-- Whether `sub` occurs as a contiguous substring of `s` (Python `sub in s`). -/
def containsSub (s sub : String) : Bool := containsSubAux sub.data s.data

/-- Dropping a satisfied prefix twice is the same as dropping it once. -/
theorem dropWhile_dropWhile {α : Type} (p : α → Bool) (l : List α) :
    (l.dropWhile p).dropWhile p = l.dropWhile p := by
  induction l with
  | nil => rfl
  | cons a as ih =>
    by_cases h : p a
    · simp [List.dropWhile_cons, h, ih]
    · simp [List.dropWhile_cons, h]

/-- The head surviving a `dropWhile` fails the predicate. -/
theorem head?_dropWhile_false {α : Type} (p : α → Bool) (l : List α) :
    ∀ a, (l.dropWhile p).head? = some a → p a = false := by
  induction l with
  | nil => intro a h; simp at h
  | cons b bs ih =>
    intro a h
    by_cases hb : p b
    · rw [List.dropWhile_cons_of_pos hb] at h
      exact ih a h
    · rw [List.dropWhile_cons_of_neg hb] at h
      simp only [List.head?_cons, Option.some.injEq] at h
      subst h
      simpa using hb

/-- A list whose head fails the predicate is untouched by `dropWhile`. -/
theorem dropWhile_eq_self_of_head? {α : Type} (p : α → Bool) (l : List α)
    (h : ∀ a, l.head? = some a → p a = false) : l.dropWhile p = l := by
  cases l with
  | nil => rfl
  | cons a as =>
    have ha := h a rfl
    simp [List.dropWhile_cons, ha]

/-- When `dropWhile` leaves something, the last element is unchanged. -/
theorem getLast?_dropWhile {α : Type} (p : α → Bool) (l : List α)
    (h : l.dropWhile p ≠ []) : (l.dropWhile p).getLast? = l.getLast? := by
  induction l with
  | nil => simp at h
  | cons b bs ih =>
    by_cases hb : p b
    · rw [List.dropWhile_cons_of_pos hb] at h ⊢
      rw [ih h]
      cases bs with
      | nil => simp at h
      | cons c cs => simp [List.getLast?_cons_cons]
    · rw [List.dropWhile_cons_of_neg hb]

/-- Stripping both ends is idempotent. -/
theorem stripChars_idem (l : List Char) : stripChars (stripChars l) = stripChars l := by
  unfold stripChars
  generalize hl1 : l.dropWhile isPySpace = l1
  generalize hm : l1.reverse.dropWhile isPySpace = m
  by_cases hmnil : m = []
  · subst hmnil; simp
  · have h1 : m.reverse.dropWhile isPySpace = m.reverse := by
      apply dropWhile_eq_self_of_head?
      intro a ha
      rw [List.head?_reverse] at ha
      have h2 : m.getLast? = l1.reverse.getLast? := by
        rw [← hm]
        exact getLast?_dropWhile _ _ (hm ▸ hmnil)
      have h3 : l1.reverse.getLast? = l1.head? := by
        rw [← List.head?_reverse, List.reverse_reverse]
      have h4 : (l.dropWhile isPySpace).head? = some a := by
        rw [hl1, ← h3, ← h2]; exact ha
      exact head?_dropWhile_false isPySpace l a h4
    rw [h1, List.reverse_reverse]
    have h5 : m.dropWhile isPySpace = m := by
      rw [← hm]; exact dropWhile_dropWhile _ _
    rw [h5]

/-- Stripping a string twice equals stripping it once. -/
theorem pyStrip_idem (s : String) : pyStrip (pyStrip s) = pyStrip s :=
  congrArg String.mk (stripChars_idem s.data)

/-- Looking up the freshly assigned id right after `AddTask` finds the new
row, because every pre-existing row has a strictly smaller id. -/
theorem GetTaskByID_AddTask_self (db : KDB)
    (hwf : ∀ r ∈ db.tasks, r.id < db.nextId)
    (title status : String) (pic creation : Int) (due : Option String)
    (creator : Int) (info : String) :
    GetTaskByID (AddTask db title status pic creation due creator info) db.nextId =
      some ⟨db.nextId, title, status, pic, creation, due, creator, none, info⟩ := by
  unfold GetTaskByID AddTask
  simp only
  rw [List.find?_append]
  have h1 : db.tasks.find? (fun r => r.id == db.nextId) = none := by
    rw [List.find?_eq_none]
    intro x hx
    have hlt := hwf x hx
    simp only [beq_iff_eq]
    omega
  rw [h1]
  simp

/-- After `DelTask`, the deleted id no longer resolves. -/
theorem GetTaskByID_DelTask_self (db : KDB) (i : Int) :
    GetTaskByID (DelTask db i) i = none := by
  unfold GetTaskByID DelTask
  simp only
  rw [List.find?_eq_none]
  intro x hx
  simp only [List.mem_filter] at hx
  simpa using hx.2

/-- A `find?`-by-id survives an id-preserving rewrite of the found row. -/
theorem find?_id_map_update (l : List Row) (i : Int)
    (f : Row → Row) (hf : ∀ r, (f r).id = r.id) (row : Row)
    (h : l.find? (fun r => r.id == i) = some row) :
    (l.map (fun r => if r.id == i then f r else r)).find? (fun r => r.id == i) =
      some (f row) := by
  induction l with
  | nil => simp at h
  | cons a as ih =>
    by_cases ha : (a.id == i) = true
    · rw [List.find?_cons, ha] at h
      have hrow : a = row := by injection h
      subst hrow
      have hfa : ((f a).id == i) = true := by rw [hf a]; exact ha
      simp only [List.map_cons, if_pos ha, List.find?_cons, hfa]
    · rw [List.find?_cons] at h
      rw [Bool.not_eq_true] at ha
      rw [ha] at h
      simp only [List.map_cons, ha, if_false, List.find?_cons, Bool.false_eq_true]
      exact ih h

/-- Inversion of a successful `from_database_row`: the guards all passed and
the fields of the task are those of the row (title stripped). -/
theorem from_database_row_ok {r : Row} {t : Task}
    (h : from_database_row r = .ok t) :
    pyStrip r.title ≠ "" ∧ r.status ≠ "" ∧ ¬ r.person_in_charge ≤ 0 ∧
    ¬ r.creator ≤ 0 ∧ is_valid_status r.status = true ∧
    t = ⟨some r.id, pyStrip r.title, r.status, r.person_in_charge, r.due_date,
         r.creator, r.additional_info, r.editors, r.creation_date⟩ := by
  unfold from_database_row Task.init at h
  by_cases h1 : pyStrip r.title = ""
  · rw [if_pos h1] at h; exact absurd h (by simp)
  rw [if_neg h1] at h
  by_cases h2 : r.status = ""
  · rw [if_pos h2] at h; exact absurd h (by simp)
  rw [if_neg h2] at h
  by_cases h3 : r.person_in_charge ≤ 0
  · rw [if_pos h3] at h; exact absurd h (by simp)
  rw [if_neg h3] at h
  by_cases h4 : r.creator ≤ 0
  · rw [if_pos h4] at h; exact absurd h (by simp)
  rw [if_neg h4] at h
  by_cases h5 : is_valid_status r.status = false
  · rw [if_pos h5] at h; exact absurd h (by simp)
  rw [if_neg h5] at h
  have h5' : is_valid_status r.status = true := by
    cases hb : is_valid_status r.status
    · exact absurd hb h5
    · rfl
  have h6 : Task.mk (some r.id) (pyStrip r.title) r.status r.person_in_charge
      r.due_date r.creator r.additional_info r.editors r.creation_date = t := by
    injection h
  exact ⟨h1, h2, h3, h4, h5', h6.symm⟩

/-- Evaluation of `from_database_row` when all guards pass. -/
theorem from_database_row_eval (r : Row)
    (h1 : pyStrip r.title ≠ "") (h2 : r.status ≠ "")
    (h3 : ¬ r.person_in_charge ≤ 0) (h4 : ¬ r.creator ≤ 0)
    (h5 : is_valid_status r.status = true) :
    from_database_row r = .ok ⟨some r.id, pyStrip r.title, r.status,
      r.person_in_charge, r.due_date, r.creator, r.additional_info,
      r.editors, r.creation_date⟩ := by
  unfold from_database_row Task.init
  rw [if_neg h1, if_neg h2, if_neg h3, if_neg h4, if_neg (by simp [h5])]

/-- Inversion of a successful `get_task`: the id resolved to a row that
rebuilt into the returned task. -/
theorem get_task_eq_some {db : KDB} {i : Int} {t : Task}
    (h : get_task db i = some t) :
    ∃ row, GetTaskByID db i = some row ∧ from_database_row row = .ok t := by
  unfold get_task at h
  split at h
  · exact absurd h (by simp)
  · rename_i row hg
    split at h
    · rename_i t' hf
      simp only [Option.some.injEq] at h
      exact ⟨row, hg, by rw [hf, h]⟩
    · exact absurd h (by simp)

/-- C10: `Task.__eq__` compares only task ids — two tasks are equal exactly
when both ids are the same non-`None` value (so tasks with equal ids but
different fields are equal), and a task with a `None` id is not equal to any
task, itself included. -/
theorem task_eq_iff_ids (a b : Task) :
    (taskEq a b = true ↔ ∃ i, a.task_id = some i ∧ b.task_id = some i) ∧
    (a.task_id = none → taskEq a a = false) := by
  constructor
  · unfold taskEq
    cases ha : a.task_id with
    | none => simp
    | some va =>
      cases hb : b.task_id with
      | none => simp
      | some vb =>
        simp only [Option.isSome_some, Bool.true_and, beq_iff_eq, Option.some.injEq]
        constructor
        · intro h
          exact ⟨va, rfl, by rw [h]⟩
        · rintro ⟨i, h1, h2⟩
          rw [h1, h2]
  · intro h
    unfold taskEq
    rw [h]
    rfl

/-- C10 witness: a concrete id-less task is unequal to itself, and two
concrete tasks sharing id 5 but differing in every other field are equal. -/
theorem task_eq_iff_ids_witness :
    taskEq ⟨none, "A", "To-Do", 1, some "2024-01-01", 1, "", none, 0⟩
      ⟨none, "A", "To-Do", 1, some "2024-01-01", 1, "", none, 0⟩ = false ∧
    taskEq ⟨some 5, "A", "To-Do", 1, some "2024-01-01", 1, "", none, 0⟩
      ⟨some 5, "B", "Finished", 2, some "2025-05-05", 2, "x", some 9, 3⟩ = true :=
  ⟨(task_eq_iff_ids ⟨none, "A", "To-Do", 1, some "2024-01-01", 1, "", none, 0⟩
      ⟨none, "A", "To-Do", 1, some "2024-01-01", 1, "", none, 0⟩).2 rfl,
   (task_eq_iff_ids ⟨some 5, "A", "To-Do", 1, some "2024-01-01", 1, "", none, 0⟩
      ⟨some 5, "B", "Finished", 2, some "2025-05-05", 2, "x", some 9, 3⟩).1.mpr
     ⟨5, rfl, rfl⟩⟩

/-- C9: whenever the KANBAN table exists the scan output starts with the
fixed separator (newline, 50 dashes, newline), hence is non-empty even with
no qualifying task; the output is empty exactly when the table is absent. -/
theorem scan_separator_head (table : Option (List Row))
    (users : List (Int × String)) (now : DateTime) :
    (UpcomingTask table users now = [] ↔ table = none) ∧
    (∀ rows, table = some rows →
      (UpcomingTask table users now).head? = some separator) := by
  cases table with
  | none => simp [UpcomingTask]
  | some rows =>
    constructor
    · simp [UpcomingTask]
    · intro rows' h
      simp [UpcomingTask]

/-- C9 witness: with an existing empty table the scan is the separator
alone; with the table absent it is empty. -/
theorem scan_separator_head_witness :
    (UpcomingTask (some []) [] ⟨0, 0⟩).head? = some separator ∧
    UpcomingTask none [] ⟨0, 0⟩ = [] :=
  ⟨(scan_separator_head (some []) [] ⟨0, 0⟩).2 [] rfl,
   (scan_separator_head none [] ⟨0, 0⟩).1.mpr rfl⟩

/-- C8: a task whose due date is absent, blank after stripping, or
unparseable as `%Y-%m-%d` contributes no notification entry (the scan skips
it without failing), so it is classified neither overdue nor upcoming. -/
theorem scan_skips_missing_due (users : List (Int × String)) (now : DateTime)
    (r : Row)
    (h : r.due_date = none ∨
         ∃ s, r.due_date = some s ∧ (pyStrip s = "" ∨ parseYMD (pyStrip s) = none)) :
    rowNotification users now r = none ∧
    UpcomingTask (some [r]) users now = [separator] := by
  have hd : dueDayOf r = none := by
    unfold dueDayOf
    rcases h with h | ⟨s, hs, h2 | h2⟩
    · rw [h]
    · rw [hs]; simp [h2]
    · rw [hs]
      by_cases he : pyStrip s = ""
      · simp [he]
      · simp [he, h2]
  have hnone : rowNotification users now r = none := by
    unfold rowNotification
    rw [hd]
  refine ⟨hnone, ?_⟩
  unfold UpcomingTask
  simp [hnone]

/-- C8 witness: three concrete rows — due date `NULL`, whitespace-only, and
malformed — each yield no entry and a separator-only scan. -/
theorem scan_skips_missing_due_witness :
    (rowNotification [] ⟨0, 0⟩ ⟨1, "T", "To-Do", 7, 0, none, 7, none, ""⟩ = none ∧
     UpcomingTask (some [⟨1, "T", "To-Do", 7, 0, none, 7, none, ""⟩]) [] ⟨0, 0⟩ = [separator]) ∧
    (rowNotification [] ⟨0, 0⟩ ⟨2, "T", "To-Do", 7, 0, some "  ", 7, none, ""⟩ = none ∧
     UpcomingTask (some [⟨2, "T", "To-Do", 7, 0, some "  ", 7, none, ""⟩]) [] ⟨0, 0⟩ = [separator]) ∧
    (rowNotification [] ⟨0, 0⟩ ⟨3, "T", "To-Do", 7, 0, some "next week", 7, none, ""⟩ = none ∧
     UpcomingTask (some [⟨3, "T", "To-Do", 7, 0, some "next week", 7, none, ""⟩]) [] ⟨0, 0⟩ = [separator]) :=
  ⟨scan_skips_missing_due [] ⟨0, 0⟩ ⟨1, "T", "To-Do", 7, 0, none, 7, none, ""⟩
     (Or.inl rfl),
   scan_skips_missing_due [] ⟨0, 0⟩ ⟨2, "T", "To-Do", 7, 0, some "  ", 7, none, ""⟩
     (Or.inr ⟨"  ", rfl, Or.inl (by decide)⟩),
   scan_skips_missing_due [] ⟨0, 0⟩ ⟨3, "T", "To-Do", 7, 0, some "next week", 7, none, ""⟩
     (Or.inr ⟨"next week", rfl, Or.inr (by decide)⟩)⟩

/-- C2: for a task with a parseable due date, the scan includes it exactly
when the due calendar day is strictly before today or lies in the inclusive
window [today, today + 14]; in particular a due day beyond the 14-day
horizon yields no entry. -/
theorem scan_inclusion_iff (users : List (Int × String)) (now : DateTime)
    (r : Row) (d : Int) (hd : dueDayOf r = some d) :
    ((rowNotification users now r).isSome ↔
      (d < now.day ∨ (now.day ≤ d ∧ d ≤ now.day + 14))) ∧
    (now.day + 14 < d → rowNotification users now r = none) := by
  have hDue : Due = (14 : Int) := rfl
  have hrw : rowNotification users now r =
      if d < now.day ∨ (now.day ≤ d ∧ d ≤ now.day + Due) then
        some (dueMessage now d ++ rowInfo users r)
      else none := by
    unfold rowNotification
    rw [hd]
  rw [hrw]
  constructor
  · by_cases hc : d < now.day ∨ (now.day ≤ d ∧ d ≤ now.day + Due)
    · rw [if_pos hc]
      simp only [Option.isSome_some, true_iff]
      rw [hDue] at hc
      exact hc
    · rw [if_neg hc]
      simp only [Option.isSome_none, Bool.false_eq_true, false_iff]
      intro hcon
      apply hc
      rw [hDue]
      exact hcon
  · intro hgt
    rw [if_neg (by rw [hDue]; omega)]

/-- C2 witness: with `now = 2024-01-10`, a task due `2024-02-01` (beyond the
14-day horizon) is excluded, while one due `2024-01-20` (within it) is
included. -/
theorem scan_inclusion_iff_witness :
    (dueDayOf ⟨1, "T", "To-Do", 7, 0, some "2024-02-01", 7, none, ""⟩ =
       some (epochDay 2024 2 1) ∧
     rowNotification [] ⟨epochDay 2024 1 10, 0⟩
       ⟨1, "T", "To-Do", 7, 0, some "2024-02-01", 7, none, ""⟩ = none) ∧
    ((rowNotification [] ⟨epochDay 2024 1 10, 0⟩
       ⟨2, "T", "To-Do", 7, 0, some "2024-01-20", 7, none, ""⟩).isSome = true) :=
  ⟨⟨by decide,
    (scan_inclusion_iff [] ⟨epochDay 2024 1 10, 0⟩
      ⟨1, "T", "To-Do", 7, 0, some "2024-02-01", 7, none, ""⟩
      (epochDay 2024 2 1) (by decide)).2 (by decide)⟩,
   (scan_inclusion_iff [] ⟨epochDay 2024 1 10, 0⟩
      ⟨2, "T", "To-Do", 7, 0, some "2024-01-20", 7, none, ""⟩
      (epochDay 2024 1 20) (by decide)).1.mpr (by decide)⟩

/-- C7 counterexample: a task due on the date of `now` (2024-01-10, scan at
10:00) produces an entry, but that entry nowhere contains the label
`"due today"` — it is labeled `"due in"` with the days component `0`. -/
theorem due_today_label_cex :
    ((rowNotification [] ⟨epochDay 2024 1 10, 36000000000⟩
        ⟨1, "T", "To-Do", 7, 0, some "2024-01-10", 7, none, ""⟩).map
      (fun m => containsSub m "due today")) = some false ∧
    ((rowNotification [] ⟨epochDay 2024 1 10, 36000000000⟩
        ⟨1, "T", "To-Do", 7, 0, some "2024-01-10", 7, none, ""⟩).map
      (fun m => containsSub m "[Task due in 0d ")) = some true := by
  constructor
  · decide
  · decide

/-- C7 amended: a task due on the calendar date of `now` is included, labeled
`"due in"` (not `"due today"`) with the days component of the delta forced
to `0`, in the format days-`d`, zero-padded hours-`h`, zero-padded minutes-`m`, regardless of
the time-of-day gap to the end-of-day instant of the due date. -/
theorem due_today_days_forced_zero (users : List (Int × String))
    (now : DateTime) (r : Row)
    (hd : dueDayOf r = some now.day) (hus : now.usec < usecPerDay) :
    ∃ H M rest, rowNotification users now r =
      some (("[Task due in " ++ ("0d " ++ pad2 H ++ "h " ++ pad2 M ++ "m") ++ "]\n") ++ rest) := by
  have ht : timeLeftUsec now now.day = (endOfDayUsec : Int) - (now.usec : Int) := by
    unfold timeLeftUsec
    ring
  have ht0 : ¬ timeLeftUsec now now.day < 0 := by
    rw [ht]
    unfold endOfDayUsec
    unfold usecPerDay at hus
    omega
  refine ⟨(timeLeftUsec now now.day).toNat % usecPerDay / 1000000 / 3600,
          (timeLeftUsec now now.day).toNat % usecPerDay / 1000000 % 3600 / 60,
          rowInfo users r, ?_⟩
  have hrw0 : rowNotification users now r =
      if now.day < now.day ∨ (now.day ≤ now.day ∧ now.day ≤ now.day + Due) then
        some (dueMessage now now.day ++ rowInfo users r)
      else none := by
    unfold rowNotification
    rw [hd]
  rw [hrw0, if_pos (Or.inr ⟨le_refl _, by unfold Due; omega⟩)]
  unfold dueMessage
  rw [if_neg ht0]
  simp only [beq_self_eq_true, if_true]

/-- C7 amended witness: the same-day task at 10:00 on 2024-01-10 gets a
`"due in 0d ..."` entry. -/
theorem due_today_days_forced_zero_witness :
    dueDayOf ⟨1, "T", "To-Do", 7, 0, some "2024-01-10", 7, none, ""⟩ =
      some (DateTime.day ⟨epochDay 2024 1 10, 36000000000⟩) ∧
    DateTime.usec ⟨epochDay 2024 1 10, 36000000000⟩ < usecPerDay ∧
    ∃ H M rest, rowNotification [] ⟨epochDay 2024 1 10, 36000000000⟩
        ⟨1, "T", "To-Do", 7, 0, some "2024-01-10", 7, none, ""⟩ =
      some (("[Task due in " ++ ("0d " ++ pad2 H ++ "h " ++ pad2 M ++ "m") ++ "]\n") ++ rest) :=
  ⟨by decide, by decide,
   due_today_days_forced_zero [] ⟨epochDay 2024 1 10, 36000000000⟩
     ⟨1, "T", "To-Do", 7, 0, some "2024-01-10", 7, none, ""⟩ (by decide) (by decide)⟩

/-- C6: an `add_task` whose status lies outside the four-value enumeration
fails with the invalid-status message and leaves the store untouched. -/
theorem add_invalid_status_rejected (db : KDB) (now : Int)
    (title status : String) (pic : Int) (due : String) (creator : Int)
    (info : String) (h : is_valid_status status = false) :
    add_task db now title status pic due creator info =
      (db, false, ["Add Task Failed: Status is not valid"]) := by
  unfold add_task
  rw [if_pos h]

/-- C6 witness: adding with status `"Blocked"` on a concrete store fails
with the invalid-status message and persists nothing. -/
theorem add_invalid_status_rejected_witness :
    is_valid_status "Blocked" = false ∧
    add_task ⟨[7], [], 1⟩ 0 "T" "Blocked" 7 "2024-01-01" 7 "" =
      (⟨[7], [], 1⟩, false, ["Add Task Failed: Status is not valid"]) :=
  ⟨by decide,
   add_invalid_status_rejected ⟨[7], [], 1⟩ 0 "T" "Blocked" 7 "2024-01-01" 7 ""
     (by decide)⟩

/-- C1 counterexample: two inputs that are valid as the claim words it (non-empty
title, valid status, existing person-in-charge and creator) on which the
claim fails.  With title `" A"` the add succeeds but the record read back
carries title `"A"`, not the supplied `" A"`; and the non-empty,
whitespace-only title `" "` makes the add fail outright. -/
theorem add_get_roundtrip_cex :
    ((add_task ⟨[7], [], 1⟩ 0 " A" "To-Do" 7 "2024-01-01" 7 "").2.1 = true ∧
     (get_task (add_task ⟨[7], [], 1⟩ 0 " A" "To-Do" 7 "2024-01-01" 7 "").1 1).map
        Task.title = some "A" ∧
     " A" ≠ "A") ∧
    (" " ≠ "" ∧
     (add_task ⟨[7], [], 1⟩ 0 " " "To-Do" 7 "2024-01-01" 7 "").2.1 = false) := by
  refine ⟨⟨?_, ?_, ?_⟩, ?_, ?_⟩ <;> decide

/-- C1 amended: for a title that is non-empty after stripping, a valid
status, and an existing person-in-charge and creator, `add_task` succeeds
and `get_task` of the newly assigned id returns a record whose title is the
supplied title stripped of surrounding whitespace and whose status,
person-in-charge, due date, creator and additional info are exactly as
supplied, with the editor unset. -/
theorem add_get_roundtrip_stripped
    (db : KDB) (now : Int) (title status : String) (pic creator : Int)
    (due info : String)
    (hwf : db.WF)
    (htitle : pyStrip title ≠ "")
    (hstatus : is_valid_status status = true)
    (hpic : CheckUserExist db pic = true)
    (hcreator : CheckUserExist db creator = true) :
    (add_task db now title status pic due creator info).2.1 = true ∧
    get_task (add_task db now title status pic due creator info).1 db.nextId =
      some ⟨some db.nextId, pyStrip title, status, pic, some due, creator, info,
            none, now⟩ := by
  have hpmem : pic ∈ db.users := by
    unfold CheckUserExist at hpic
    exact List.elem_iff.mp hpic
  have hcmem : creator ∈ db.users := by
    unfold CheckUserExist at hcreator
    exact List.elem_iff.mp hcreator
  have hppos : ¬ pic ≤ 0 := by have := hwf.1 pic hpmem; omega
  have hcpos : ¬ creator ≤ 0 := by have := hwf.1 creator hcmem; omega
  have hsne : status ≠ "" := by
    intro e
    rw [e] at hstatus
    exact absurd hstatus (by decide)
  have hinit : Task.init title status pic (some due) creator info now none none =
      .ok ⟨none, pyStrip title, status, pic, some due, creator, info, none, now⟩ := by
    unfold Task.init
    rw [if_neg htitle, if_neg hsne, if_neg hppos, if_neg hcpos,
        if_neg (by simp [hstatus])]
  have hadd : add_task db now title status pic due creator info =
      (AddTask db (pyStrip title) status pic now (some due) creator info, true,
       ["✓ Added: " ++ title]) := by
    unfold add_task
    rw [if_neg (by simp [hstatus]), if_neg (by simp [hpic]),
        if_neg (by simp [hcreator]), hinit]
  rw [hadd]
  refine ⟨rfl, ?_⟩
  have hfind : GetTaskByID (AddTask db (pyStrip title) status pic now (some due)
      creator info) db.nextId =
      some ⟨db.nextId, pyStrip title, status, pic, now, some due, creator, none, info⟩ :=
    GetTaskByID_AddTask_self db hwf.2 (pyStrip title) status pic now (some due)
      creator info
  have hrow : from_database_row
      ⟨db.nextId, pyStrip title, status, pic, now, some due, creator, none, info⟩ =
      .ok ⟨some db.nextId, pyStrip (pyStrip title), status, pic, some due, creator,
           info, none, now⟩ :=
    from_database_row_eval _ (by rw [pyStrip_idem]; exact htitle) hsne hppos hcpos hstatus
  have hget2 : get_task (AddTask db (pyStrip title) status pic now (some due)
      creator info) db.nextId =
      match from_database_row
        ⟨db.nextId, pyStrip title, status, pic, now, some due, creator, none, info⟩ with
      | .ok t => some t
      | .error _ => none := by
    unfold get_task
    rw [hfind]
  rw [hget2, hrow, pyStrip_idem]

/-- C3: deleting an id that resolves to a stored task succeeds, with the
confirmation message carrying the title of the record as it stood immediately
before removal; afterwards `get_task` of that id is `none` and a second
delete fails with the task-not-found message. -/
theorem delete_then_get_none (db : KDB) (id : Int) (t : Task)
    (hget : get_task db id = some t) :
    (delete_task db id).2.1 = true ∧
    (delete_task db id).2.2 = ["✓ Deleted: " ++ t.title] ∧
    get_task (delete_task db id).1 id = none ∧
    delete_task (delete_task db id).1 id =
      ((delete_task db id).1, false, ["Delete Task Failed: Task not found"]) := by
  obtain ⟨row, hrow, hok⟩ := get_task_eq_some hget
  have hdel : delete_task db id = (DelTask db id, true, ["✓ Deleted: " ++ t.title]) := by
    unfold delete_task
    rw [hrow]
    have hmid : (match from_database_row row with
        | .error e => (db, false, ["✗ Delete Task Failed: " ++ e])
        | .ok t => (DelTask db id, true, ["✓ Deleted: " ++ t.title])) =
        (DelTask db id, true, ["✓ Deleted: " ++ t.title]) := by
      rw [hok]
    exact hmid
  have hnone : GetTaskByID (DelTask db id) id = none := GetTaskByID_DelTask_self db id
  refine ⟨by rw [hdel], by rw [hdel], ?_, ?_⟩
  · rw [hdel]
    unfold get_task
    rw [hnone]
  · rw [hdel]
    unfold delete_task
    rw [hnone]

/-- C3 witness: on a concrete single-task store, deleting id 1 succeeds
naming the stored title, the id stops resolving, and a second delete fails. -/
theorem delete_then_get_none_witness :
    get_task ⟨[7], [⟨1, "A", "To-Do", 7, 0, some "2024-01-01", 7, none, ""⟩], 2⟩ 1 =
      some ⟨some 1, "A", "To-Do", 7, some "2024-01-01", 7, "", none, 0⟩ ∧
    ((delete_task ⟨[7], [⟨1, "A", "To-Do", 7, 0, some "2024-01-01", 7, none, ""⟩], 2⟩ 1).2.1 = true ∧
     (delete_task ⟨[7], [⟨1, "A", "To-Do", 7, 0, some "2024-01-01", 7, none, ""⟩], 2⟩ 1).2.2 =
       ["✓ Deleted: " ++ Task.title ⟨some 1, "A", "To-Do", 7, some "2024-01-01", 7, "", none, 0⟩] ∧
     get_task (delete_task ⟨[7], [⟨1, "A", "To-Do", 7, 0, some "2024-01-01", 7, none, ""⟩], 2⟩ 1).1 1 = none ∧
     delete_task (delete_task ⟨[7], [⟨1, "A", "To-Do", 7, 0, some "2024-01-01", 7, none, ""⟩], 2⟩ 1).1 1 =
       ((delete_task ⟨[7], [⟨1, "A", "To-Do", 7, 0, some "2024-01-01", 7, none, ""⟩], 2⟩ 1).1, false,
        ["Delete Task Failed: Task not found"])) :=
  ⟨by decide,
   delete_then_get_none ⟨[7], [⟨1, "A", "To-Do", 7, 0, some "2024-01-01", 7, none, ""⟩], 2⟩ 1
     ⟨some 1, "A", "To-Do", 7, some "2024-01-01", 7, "", none, 0⟩ (by decide)⟩

/-- C4: an edit whose updates carry a status outside the enumeration fails
with the invalid-status error and the whole store is left untouched — no
partial field commit — even when a valid title update was supplied
alongside. -/
theorem edit_invalid_status_atomic
    (db : KDB) (id editor : Int) (t : Task) (u : Updates) (s : String)
    (hget : get_task db id = some t)
    (heditor : CheckUserExist db editor = true)
    (hs : u.NewStatus = some s)
    (hsv : is_valid_status s = false)
    (htl : u.NewTitle = none ∨ ∃ v, u.NewTitle = some v ∧ pyStrip v ≠ "") :
    edit_task db id editor u =
      (db, false, ["✗ Edit Task Failed: " ++ ("Invalid status: " ++ s)]) := by
  obtain ⟨row, hrow, hok⟩ := get_task_eq_some hget
  have happ : apply_task_updates db t u editor = .error ("Invalid status: " ++ s) := by
    obtain ⟨nt, ns, np, nd, na⟩ := u
    simp only at hs htl
    subst hs
    rcases htl with h | ⟨v, hv, hvne⟩
    · subst h
      simp only [apply_task_updates, Except.bind, hsv, if_true]
    · subst hv
      simp only [apply_task_updates, Task.setTitle, if_neg hvne, Except.map,
        Except.bind, hsv, if_true]
  unfold edit_task
  rw [hrow]
  have hmid : (if CheckUserExist db editor = false then
      (db, false, ["Edit Task Failed: Editor " ++ toString editor ++ " does not exist"])
    else
      match from_database_row row with
      | .error e => (db, false, ["✗ Edit Task Failed: " ++ e])
      | .ok t =>
        match apply_task_updates db t u editor with
        | .error e => (db, false, ["✗ Edit Task Failed: " ++ e])
        | .ok s =>
          if s.2.isEmpty then (db, true, ["No valid changes specified"])
          else
            (EditTask db id s.1.title s.1.status s.1.person_in_charge s.1.due_date
              s.1.editors s.1.additional_info,
             true,
             ["✓ Updated task " ++ toString id ++ ": " ++ String.intercalate ", " s.2])) =
      (db, false, ["✗ Edit Task Failed: " ++ ("Invalid status: " ++ s)]) := by
    rw [if_neg (by simp [heditor])]
    simp only [hok]
    rw [happ]
  exact hmid

/-- C4 witness: on a concrete store, an edit supplying a valid new title
together with status `"Blocked"` is rejected whole: the result is the
unchanged store and the invalid-status failure. -/
theorem edit_invalid_status_atomic_witness :
    get_task ⟨[7], [⟨1, "A", "To-Do", 7, 0, some "2024-01-01", 7, none, ""⟩], 2⟩ 1 =
      some ⟨some 1, "A", "To-Do", 7, some "2024-01-01", 7, "", none, 0⟩ ∧
    CheckUserExist ⟨[7], [⟨1, "A", "To-Do", 7, 0, some "2024-01-01", 7, none, ""⟩], 2⟩ 7 = true ∧
    is_valid_status "Blocked" = false ∧
    edit_task ⟨[7], [⟨1, "A", "To-Do", 7, 0, some "2024-01-01", 7, none, ""⟩], 2⟩ 1 7
        ⟨some "B", some "Blocked", none, none, none⟩ =
      (⟨[7], [⟨1, "A", "To-Do", 7, 0, some "2024-01-01", 7, none, ""⟩], 2⟩, false,
       ["✗ Edit Task Failed: " ++ ("Invalid status: " ++ "Blocked")]) :=
  ⟨by decide, by decide, by decide,
   edit_invalid_status_atomic ⟨[7], [⟨1, "A", "To-Do", 7, 0, some "2024-01-01", 7, none, ""⟩], 2⟩
     1 7 ⟨some 1, "A", "To-Do", 7, some "2024-01-01", 7, "", none, 0⟩
     ⟨some "B", some "Blocked", none, none, none⟩ "Blocked"
     (by decide) (by decide) rfl (by decide)
     (Or.inr ⟨"B", rfl, by decide⟩)⟩

/-- C5: an edit that supplies only a valid, different status succeeds and
the record read back afterwards has that status and the acting user as
editor, while title, person-in-charge, due date and additional info are
bit-identical to their prior values. -/
theorem edit_status_only_frame
    (db : KDB) (id editor : Int) (t : Task) (s' : String)
    (hwf : db.WF)
    (hget : get_task db id = some t)
    (heditor : CheckUserExist db editor = true)
    (hs : is_valid_status s' = true)
    (_hne : s' ≠ t.status) :
    (edit_task db id editor ⟨none, some s', none, none, none⟩).2.1 = true ∧
    get_task (edit_task db id editor ⟨none, some s', none, none, none⟩).1 id =
      some { t with status := s', editors := some editor } := by
  obtain ⟨row, hrow, hok⟩ := get_task_eq_some hget
  obtain ⟨h1, h2, h3, h4, h5, ht⟩ := from_database_row_ok hok
  have hedmem : editor ∈ db.users := by
    unfold CheckUserExist at heditor
    exact List.elem_iff.mp heditor
  have hedpos : ¬ editor ≤ 0 := by have := hwf.1 editor hedmem; omega
  have hsney : s' ≠ "" := by
    intro e
    rw [e] at hs
    exact absurd hs (by decide)
  have happ : apply_task_updates db t ⟨none, some s', none, none, none⟩ editor =
      .ok ({ t with status := s', editors := some editor }, ["status", "editor"]) := by
    simp only [apply_task_updates, Except.bind, Task.setStatus, Task.setEditors,
      hs, Except.map, hedpos, heditor]
    simp
  have hedit : edit_task db id editor ⟨none, some s', none, none, none⟩ =
      (EditTask db id t.title s' t.person_in_charge t.due_date (some editor)
        t.additional_info, true,
       ["✓ Updated task " ++ toString id ++ ": " ++
         String.intercalate ", " ["status", "editor"]]) := by
    unfold edit_task
    rw [hrow]
    have hmid : (if CheckUserExist db editor = false then
        (db, false, ["Edit Task Failed: Editor " ++ toString editor ++ " does not exist"])
      else
        match from_database_row row with
        | .error e => (db, false, ["✗ Edit Task Failed: " ++ e])
        | .ok t =>
          match apply_task_updates db t ⟨none, some s', none, none, none⟩ editor with
          | .error e => (db, false, ["✗ Edit Task Failed: " ++ e])
          | .ok s =>
            if s.2.isEmpty then (db, true, ["No valid changes specified"])
            else
              (EditTask db id s.1.title s.1.status s.1.person_in_charge s.1.due_date
                s.1.editors s.1.additional_info,
               true,
               ["✓ Updated task " ++ toString id ++ ": " ++ String.intercalate ", " s.2])) =
        (EditTask db id t.title s' t.person_in_charge t.due_date (some editor)
          t.additional_info, true,
         ["✓ Updated task " ++ toString id ++ ": " ++
           String.intercalate ", " ["status", "editor"]]) := by
      rw [if_neg (by simp [heditor])]
      simp only [hok]
      rw [happ]
      rfl
    exact hmid
  rw [hedit]
  refine ⟨rfl, ?_⟩
  have hfind : GetTaskByID (EditTask db id t.title s' t.person_in_charge t.due_date
      (some editor) t.additional_info) id =
      some { row with title := t.title, status := s',
                      person_in_charge := t.person_in_charge,
                      due_date := t.due_date, editors := some editor,
                      additional_info := t.additional_info } := by
    unfold GetTaskByID EditTask
    simp only
    exact find?_id_map_update db.tasks id
      (fun r => { r with title := t.title, status := s',
                         person_in_charge := t.person_in_charge,
                         due_date := t.due_date, editors := some editor,
                         additional_info := t.additional_info })
      (fun r => rfl) row hrow
  have hrow2 : from_database_row
      { row with title := t.title, status := s',
                 person_in_charge := t.person_in_charge,
                 due_date := t.due_date, editors := some editor,
                 additional_info := t.additional_info } =
      .ok ⟨some row.id, pyStrip t.title, s', t.person_in_charge, t.due_date,
           row.creator, t.additional_info, some editor, row.creation_date⟩ :=
    from_database_row_eval _
      (by rw [ht]; simp only; rw [pyStrip_idem]; exact h1) hsney
      (by rw [ht]; simp only; exact h3) h4 hs
  have hget2 : get_task (EditTask db id t.title s' t.person_in_charge t.due_date
      (some editor) t.additional_info) id =
      match from_database_row
        { row with title := t.title, status := s',
                   person_in_charge := t.person_in_charge,
                   due_date := t.due_date, editors := some editor,
                   additional_info := t.additional_info } with
      | .ok a => some a
      | .error _ => none := by
    unfold get_task
    rw [hfind]
  rw [hget2, hrow2, ht]
  simp only [pyStrip_idem]

/-- C5 witness: on a concrete store, a status-only edit to `"In Progress"`
by editor 7 leaves every other field identical and stamps the editor. -/
theorem edit_status_only_frame_witness :
    KDB.WF ⟨[7], [⟨1, "A", "To-Do", 7, 0, some "2024-01-01", 7, none, ""⟩], 2⟩ ∧
    get_task ⟨[7], [⟨1, "A", "To-Do", 7, 0, some "2024-01-01", 7, none, ""⟩], 2⟩ 1 =
      some ⟨some 1, "A", "To-Do", 7, some "2024-01-01", 7, "", none, 0⟩ ∧
    is_valid_status "In Progress" = true ∧
    "In Progress" ≠ "To-Do" ∧
    ((edit_task ⟨[7], [⟨1, "A", "To-Do", 7, 0, some "2024-01-01", 7, none, ""⟩], 2⟩ 1 7
        ⟨none, some "In Progress", none, none, none⟩).2.1 = true ∧
     get_task (edit_task ⟨[7], [⟨1, "A", "To-Do", 7, 0, some "2024-01-01", 7, none, ""⟩], 2⟩ 1 7
        ⟨none, some "In Progress", none, none, none⟩).1 1 =
       some ⟨some 1, "A", "In Progress", 7, some "2024-01-01", 7, "", some 7, 0⟩) :=
  ⟨⟨by decide, by decide⟩, by decide, by decide, by decide,
   edit_status_only_frame ⟨[7], [⟨1, "A", "To-Do", 7, 0, some "2024-01-01", 7, none, ""⟩], 2⟩
     1 7 ⟨some 1, "A", "To-Do", 7, some "2024-01-01", 7, "", none, 0⟩ "In Progress"
     ⟨by decide, by decide⟩ (by decide) (by decide) (by decide) (by decide)⟩

/-- C1 amended witness: a concrete add with title `" A"` rounds back with
title `"A"` and all other fields verbatim, editor unset. -/
theorem add_get_roundtrip_stripped_witness :
    KDB.WF ⟨[7], [], 1⟩ ∧
    pyStrip " A" ≠ "" ∧
    is_valid_status "To-Do" = true ∧
    CheckUserExist ⟨[7], [], 1⟩ 7 = true ∧
    ((add_task ⟨[7], [], 1⟩ 0 " A" "To-Do" 7 "2024-01-01" 7 "info").2.1 = true ∧
     get_task (add_task ⟨[7], [], 1⟩ 0 " A" "To-Do" 7 "2024-01-01" 7 "info").1 1 =
       some ⟨some 1, pyStrip " A", "To-Do", 7, some "2024-01-01", 7, "info",
             none, 0⟩) :=
  ⟨⟨by decide, by decide⟩, by decide, by decide, by decide,
   add_get_roundtrip_stripped ⟨[7], [], 1⟩ 0 " A" "To-Do" 7 7 "2024-01-01" "info"
     ⟨by decide, by decide⟩ (by decide) (by decide) (by decide) (by decide)⟩

end Kanban
